import Mathlib

/-!
Shallow embedding of the `full_tracker` repository's two source files:

* `src/services/audible-service/app.py` — a Flask microservice that gates
  requests on a shared secret, decrypts/encrypts tokens with a Fernet
  cipher, delegates to the third-party `audible` client, and reshapes the
  responses into fixed JSON schemas.  Each Flask handler is embedded as a
  pure function from the request data (headers and body fields), the
  process configuration, and the outcome of the third-party calls, to the
  HTTP response together with a trace of the side effects it performed
  (token decryptions and upstream calls).  Python `data.get(k)` is
  modelled with `Option` fields, Python falsiness of strings (`not x`)
  with `pyFalsyStr`, and the double-precision evaluation of
  `int((position / (runtime * 60)) * 100)` bit-exactly by `pyFloatPct`:
  CPython's int/int true division is correctly rounded to binary64 and
  the multiplication by the exact double `100.0` is correctly rounded
  again, so the truncated result can differ from the exact floor.

* `src/scripts/tuya-test-local.py` — a diagnostic script around the
  `tinytuya` client.  Its printed output is embedded as a list of
  structured lines (the raw integer data-point values are kept; the
  vendor scaling by 10 or 100 is applied only at print time in the
  script), and the device's responses are explicit inputs.
-/

namespace Cipher

/-- Modelled from the spec: the service's `encrypt`/`decrypt` helpers wrap a
Fernet cipher from the third-party `cryptography` library (not part of this
repository).  A Fernet token is the (injective, base64url-serialised) record
of a version byte, the encryption timestamp, the random IV drawn fresh for
each encryption, the block-cipher ciphertext, and an HMAC over the preceding
fields.  The block cipher `E`/`D` (keyed by the fixed process-wide key) and
the MAC `M` are parameters of the model; the token structure is concrete. -/
structure FernetToken where
  version : ℕ
  timestamp : ℕ
  iv : ℕ
  ciphertext : List ℕ
  mac : ℕ
deriving DecidableEq

/-- Modelled from the spec: `encrypt(text)` — Fernet encryption under the
fixed process key, made deterministic by taking the encryption timestamp
`ts` and the fresh random IV `iv` as explicit inputs. -/
def encrypt (E : ℕ → List ℕ → List ℕ) (M : ℕ → ℕ → List ℕ → ℕ)
    (ts iv : ℕ) (plaintext : List ℕ) : FernetToken :=
  let ct := E iv plaintext
  ⟨128, ts, iv, ct, M ts iv ct⟩

/-- Modelled from the spec: `decrypt(token)` — checks the version byte and
the MAC, and on success inverts the block cipher; `none` models the
`InvalidToken` exception. -/
def decrypt (D : ℕ → List ℕ → List ℕ) (M : ℕ → ℕ → List ℕ → ℕ)
    (tok : FernetToken) : Option (List ℕ) :=
  if tok.version = 128 ∧ M tok.timestamp tok.iv tok.ciphertext = tok.mac then
    some (D tok.iv tok.ciphertext)
  else none

/-- A concrete involutive block cipher (XOR with the IV), used to
instantiate the abstract `E`/`D` parameters on concrete inputs. -/
def xorBytes (iv : ℕ) (bs : List ℕ) : List ℕ := bs.map (fun b => b ^^^ iv)

/-- A concrete MAC function, used to instantiate the abstract `M`
parameter on concrete inputs. -/
def macSum (ts iv : ℕ) (ct : List ℕ) : ℕ := ts + iv + ct.sum

end Cipher

namespace Audible

/-- JSON values, as produced by Flask's `jsonify`. -/
inductive Json where
  | null
  | bool (b : Bool)
  | num (n : ℤ)
  | str (s : String)
  | arr (elts : List Json)
  | obj (fields : List (String × Json))

/-- An HTTP response: status code and JSON body. -/
structure Resp where
  status : ℕ
  body : Json

/-- Observable side effects of a handler: decrypting a token and calling
the third-party `audible` client. -/
inductive Event where
  | decryptToken (token : String)
  | upstreamCall (endpoint : String)
deriving DecidableEq

/-- Process-wide configuration read from the environment at startup.
`API_SECRET` is `os.getenv('API_SECRET', '')`, so "not configured" is the
empty string. -/
structure ServiceConfig where
  API_SECRET : String

/-- `verify_api_secret` (app.py lines 65-69): accept everyone when no
secret is configured, otherwise compare for string equality. -/
def verify_api_secret (cfg : ServiceConfig) (request_secret : String) : Bool :=
  if cfg.API_SECRET = "" then true
  else request_secret == cfg.API_SECRET

/-- Python falsiness of `data.get(field)`: `None` (absent) or `''`. -/
def pyFalsyStr : Option String → Bool
  | none => true
  | some s => s == ""

/-- Floor of log2, by structural recursion on a fuel bound so that it
evaluates inside the kernel; with fuel 1200 it is exact for every
argument below `2 ^ 1200`, far beyond the binary64 range the service's
numbers inhabit. -/
def log2fuel (fuel n : ℕ) : ℕ :=
  match fuel with
  | 0 => 0
  | fuel + 1 => if n ≤ 1 then 0 else 1 + log2fuel fuel (n / 2)

/-- Round the quotient A/B (B > 0) to the nearest integer, ties to
even — the rounding step of every correctly rounded binary64
operation. -/
def roundNearestEven (A B : ℕ) : ℕ :=
  let q := A / B
  let r := A % B
  if 2 * r < B then q
  else if B < 2 * r then q + 1
  else if q % 2 = 0 then q else q + 1

/-- A nonnegative binary64 value, written `mantissa * 2 ^ exp2`. -/
structure FloatRep where
  mantissa : ℕ
  exp2 : ℤ

/-- Whether a/b is at least `2 ^ t` (b > 0), decided over integers. -/
def ge2pow (a b : ℕ) (t : ℤ) : Bool :=
  if 0 ≤ t then decide (b * 2 ^ t.toNat ≤ a)
  else decide (b ≤ a * 2 ^ (-t).toNat)

/-- Floor of log2 of a/b for positive a and b: the estimate from the
operands' bit lengths, corrected downward by one when the quotient falls
below it. -/
def ratLog2 (a b : ℕ) : ℤ :=
  let e0 : ℤ := (log2fuel 1200 a : ℤ) - (log2fuel 1200 b : ℤ)
  if ge2pow a b e0 then e0 else e0 - 1

/-- Correctly rounded binary64 of the rational a/b (a, b positive), as
CPython's int/int true division produces it: with
`e = ⌊log2 (a/b)⌋ - 52`, round `a / (b * 2 ^ e)` to the nearest integer
(ties to even), giving a 53-bit significand whose value is
`significand * 2 ^ e`.  Normal range only — the service's positions and
runtimes never reach subnormals or overflow. -/
def roundRat53 (a b : ℕ) : FloatRep :=
  let e : ℤ := ratLog2 a b - 52
  if 0 ≤ e then ⟨roundNearestEven a (b * 2 ^ e.toNat), e⟩
  else ⟨roundNearestEven (a * 2 ^ (-e).toNat) b, e⟩

/-- Correctly rounded binary64 multiplication of a nonnegative double by
the exactly representable `100.0`: multiply the significand by 100 and
re-round to 53 bits when the product has grown beyond them. -/
def times100Round (x : FloatRep) : FloatRep :=
  let m := 100 * x.mantissa
  let lg := log2fuel 1200 m
  if lg ≤ 52 then ⟨m, x.exp2⟩
  else ⟨roundNearestEven m (2 ^ (lg - 52)), x.exp2 + ((lg - 52 : ℕ) : ℤ)⟩

/-- Python `int(...)` on a nonnegative double: truncation toward zero. -/
def truncFloat (x : FloatRep) : ℕ :=
  if 0 ≤ x.exp2 then x.mantissa * 2 ^ x.exp2.toNat
  else x.mantissa / 2 ^ (-x.exp2).toNat

/-- CPython evaluation of `int((position_sec / total_sec) * 100)` for
nonnegative operands: int/int true division is correctly rounded to
binary64, the multiplication by `100.0` is correctly rounded again, and
`int()` truncates toward zero. -/
def pyFloatPct (position_sec total_sec : ℕ) : ℕ :=
  if position_sec = 0 then 0
  else truncFloat (times100Round (roundRat53 position_sec total_sec))

/-- The completion-percentage computation shared by `get_library`
(app.py lines 257-260) and `get_progress` (lines 370-374):
`percent_complete = 0; if runtime_min > 0: percent_complete =
min(100, int((position_sec / (runtime_min * 60)) * 100))`, with the
double-precision arithmetic modelled bit-exactly by `pyFloatPct`
(binary64 arithmetic and `int()` truncation are sign-symmetric, so a
negative position is mirrored through the nonnegative pipeline). -/
def percentComplete (runtime_min position_sec : ℤ) : ℤ :=
  if 0 < runtime_min then
    min 100
      (if 0 ≤ position_sec then
        (pyFloatPct position_sec.toNat (runtime_min * 60).toNat : ℤ)
      else
        -(pyFloatPct (-position_sec).toNat (runtime_min * 60).toNat : ℤ))
  else 0

/-- The `last_position_heard` record of a library item; absent keys are
`Option.none`. -/
structure LastPosition where
  position_in_book_seconds : Option ℤ
  status : Option String

/-- The empty dict default `item.get('last_position_heard', {})`. -/
def LastPosition.empty : LastPosition := ⟨none, none⟩

/-- The `product` record of a library item, restricted to the keys the
handlers read.  `authors`/`narrators` are the per-entry `name` fields
(`a.get('name', '')` reads them with default `''`); `product_images_500`
is `product.get('product_images', {}).get('500', '')`. -/
structure Product where
  title : Option String
  authors : List (Option String)
  narrators : List (Option String)
  runtime_length_min : Option ℤ
  runtime_length_sec : Option ℤ
  product_images_500 : Option String
  release_date : Option String
  isbn : Option String

/-- The empty dict default `item.get('product', {})`. -/
def Product.empty : Product := ⟨none, [], [], none, none, none, none, none⟩

/-- One item of the third-party library response. -/
structure LibraryItem where
  asin : Option String
  product : Option Product
  last_position_heard : Option LastPosition

/-- Runtime extraction in `get_library` (app.py lines 249-254): prefer
`runtime_length_min`; when it is missing or falsy (0), fall back to
`runtime_length_sec // 60` (Python `//` is floor division). -/
def extractRuntimeMin (product : Product) : ℤ :=
  let runtime_min := product.runtime_length_min.getD 0
  if runtime_min = 0 then Int.fdiv (product.runtime_length_sec.getD 0) 60
  else runtime_min

/-- The reshaped book record appended to `books` in `get_library`. -/
structure Book where
  asin : Option String
  title : String
  authors : List String
  narrators : List String
  runtime_length_min : ℤ
  cover_url : String
  release_date : Option String
  percent_complete : ℤ
  position_seconds : ℤ
  is_finished : Bool
  isbn : Option String

/-- The per-item transformation of `get_library` (app.py lines 245-284). -/
def shapeBook (item : LibraryItem) : Book :=
  let product := item.product.getD Product.empty
  let last_position := item.last_position_heard.getD LastPosition.empty
  let runtime_min := extractRuntimeMin product
  let position_sec := last_position.position_in_book_seconds.getD 0
  { asin := item.asin
    title := product.title.getD "Unknown"
    authors := product.authors.map (fun a => a.getD "")
    narrators := product.narrators.map (fun n => n.getD "")
    runtime_length_min := runtime_min
    cover_url := product.product_images_500.getD ""
    release_date := product.release_date
    percent_complete := percentComplete runtime_min position_sec
    position_seconds := position_sec
    is_finished := last_position.status == some "Finished"
    isbn := product.isbn }

/-- `None`-aware JSON rendering of an optional string field. -/
def optStrJson : Option String → Json
  | none => Json.null
  | some s => Json.str s

/-- The JSON object `jsonify` produces for one book. -/
def bookToJson (b : Book) : Json :=
  Json.obj [("asin", optStrJson b.asin),
            ("title", Json.str b.title),
            ("authors", Json.arr (b.authors.map Json.str)),
            ("narrators", Json.arr (b.narrators.map Json.str)),
            ("runtime_length_min", Json.num b.runtime_length_min),
            ("cover_url", Json.str b.cover_url),
            ("release_date", optStrJson b.release_date),
            ("percent_complete", Json.num b.percent_complete),
            ("position_seconds", Json.num b.position_seconds),
            ("is_finished", Json.bool b.is_finished),
            ("isbn", optStrJson b.isbn)]

/-- The `{'success': False, 'error': 'Unauthorized'}, 401` response every
endpoint returns when `verify_api_secret` fails. -/
def unauthorizedResp : Resp :=
  ⟨401, Json.obj [("success", Json.bool false), ("error", Json.str "Unauthorized")]⟩

/-- Request data for `POST /api/auth`: the `X-API-Secret` header and the
body fields, each `none` when absent. -/
structure AuthRequest where
  apiSecretHeader : Option String
  email : Option String
  password : Option String
  country_code : Option String

/-- Request data for `POST /api/library` and `POST /api/progress/<asin>`. -/
structure TokenRequest where
  apiSecretHeader : Option String
  access_token : Option String
  refresh_token : Option String
  country_code : Option String

/-- Request data for `POST /api/refresh-token`. -/
structure RefreshRequest where
  apiSecretHeader : Option String
  refresh_token : Option String
  country_code : Option String

/-- Outcome of `audible.Authenticator.from_login`: success with the three
token strings, the `BadRequest` exception, or any other exception. -/
inductive AuthUpstream where
  | ok (access_token refresh_token device_serial : String)
  | badRequest (msg : String)
  | exn (msg : String)

/-- Outcome of a third-party client call in the token-accepting endpoints:
success, the `UnauthorizedRequest` exception (token invalid/expired), or
any other exception. -/
inductive Upstream (α : Type) where
  | ok (result : α)
  | unauthorized (msg : String)
  | exn (msg : String)

/-- `GET /health` (app.py lines 101-108); the wall-clock timestamp is an
explicit input. -/
def health_check (timestamp : String) : Resp :=
  ⟨200, Json.obj [("status", Json.str "healthy"),
                  ("service", Json.str "audible-integration"),
                  ("timestamp", Json.str timestamp)]⟩

/-- `POST /api/auth` (app.py lines 111-188).  `enc` is the Fernet
encryption with its per-call randomness fixed, `expires_at` the computed
expiry timestamp, `upstream` the outcome of the `from_login` call.  The
second component of the result is the trace of decryptions and upstream
calls actually performed. -/
def authenticate (cfg : ServiceConfig) (enc : String → String)
    (expires_at : String) (req : AuthRequest) (upstream : AuthUpstream) :
    Resp × List Event :=
  let api_secret := req.apiSecretHeader.getD ""
  if !(verify_api_secret cfg api_secret) then
    (unauthorizedResp, [])
  else if pyFalsyStr req.email || pyFalsyStr req.password then
    (⟨400, Json.obj [("success", Json.bool false),
                     ("error", Json.str "Email and password are required")]⟩, [])
  else
    match upstream with
    | .ok access_token refresh_token device_serial =>
        (⟨200, Json.obj [("success", Json.bool true),
                         ("access_token", Json.str (enc access_token)),
                         ("refresh_token", Json.str (enc refresh_token)),
                         ("device_serial", Json.str (enc device_serial)),
                         ("expires_at", Json.str expires_at)]⟩,
         [Event.upstreamCall "from_login"])
    | .badRequest _ =>
        (⟨400, Json.obj [("success", Json.bool false),
                         ("error", Json.str "Invalid email or password")]⟩,
         [Event.upstreamCall "from_login"])
    | .exn msg =>
        (⟨500, Json.obj [("success", Json.bool false),
                         ("error", Json.str ("Authentication error: " ++ msg))]⟩,
         [Event.upstreamCall "from_login"])

/-- `POST /api/library` (app.py lines 191-305).  `dec` is the Fernet
decryption (`Except.error` models the `InvalidToken` exception, caught by
the generic handler); `create_audible_client` decrypts the access token,
then the refresh token, before the `client.get("library", ...)` call. -/
def get_library (cfg : ServiceConfig) (dec : String → Except String String)
    (req : TokenRequest) (upstream : Upstream (List LibraryItem)) :
    Resp × List Event :=
  let api_secret := req.apiSecretHeader.getD ""
  if !(verify_api_secret cfg api_secret) then
    (unauthorizedResp, [])
  else if pyFalsyStr req.access_token || pyFalsyStr req.refresh_token then
    (⟨400, Json.obj [("success", Json.bool false),
                     ("error", Json.str "Tokens are required")]⟩, [])
  else
    let access_token := req.access_token.getD ""
    let refresh_token := req.refresh_token.getD ""
    match dec access_token with
    | .error msg =>
        (⟨500, Json.obj [("success", Json.bool false),
                         ("error", Json.str ("Library fetch error: " ++ msg))]⟩,
         [Event.decryptToken access_token])
    | .ok _ =>
      match dec refresh_token with
      | .error msg =>
          (⟨500, Json.obj [("success", Json.bool false),
                           ("error", Json.str ("Library fetch error: " ++ msg))]⟩,
           [Event.decryptToken access_token, Event.decryptToken refresh_token])
      | .ok _ =>
        let trace := [Event.decryptToken access_token,
                      Event.decryptToken refresh_token,
                      Event.upstreamCall "library"]
        match upstream with
        | .ok items =>
            let books := items.map shapeBook
            (⟨200, Json.obj [("success", Json.bool true),
                             ("books", Json.arr (books.map bookToJson)),
                             ("total_count", Json.num (books.length : ℤ))]⟩, trace)
        | .unauthorized _ =>
            (⟨401, Json.obj [("success", Json.bool false),
                             ("error", Json.str "Token expired"),
                             ("needs_auth", Json.bool true)]⟩, trace)
        | .exn msg =>
            (⟨500, Json.obj [("success", Json.bool false),
                             ("error", Json.str ("Library fetch error: " ++ msg))]⟩, trace)

/-- `POST /api/progress/<asin>` (app.py lines 308-397).  Same gating as
`get_library`; on success returns a 404 when the item list is empty and
otherwise shapes the first item (note: no seconds fallback for the
runtime here, `runtime_min = product.get('runtime_length_min', 0)`). -/
def get_progress (cfg : ServiceConfig) (dec : String → Except String String)
    (asin : String) (req : TokenRequest)
    (upstream : Upstream (List LibraryItem)) : Resp × List Event :=
  let api_secret := req.apiSecretHeader.getD ""
  if !(verify_api_secret cfg api_secret) then
    (unauthorizedResp, [])
  else if pyFalsyStr req.access_token || pyFalsyStr req.refresh_token then
    (⟨400, Json.obj [("success", Json.bool false),
                     ("error", Json.str "Tokens are required")]⟩, [])
  else
    let access_token := req.access_token.getD ""
    let refresh_token := req.refresh_token.getD ""
    match dec access_token with
    | .error msg =>
        (⟨500, Json.obj [("success", Json.bool false),
                         ("error", Json.str ("Progress fetch error: " ++ msg))]⟩,
         [Event.decryptToken access_token])
    | .ok _ =>
      match dec refresh_token with
      | .error msg =>
          (⟨500, Json.obj [("success", Json.bool false),
                           ("error", Json.str ("Progress fetch error: " ++ msg))]⟩,
           [Event.decryptToken access_token, Event.decryptToken refresh_token])
      | .ok _ =>
        let trace := [Event.decryptToken access_token,
                      Event.decryptToken refresh_token,
                      Event.upstreamCall "library"]
        match upstream with
        | .ok [] =>
            (⟨404, Json.obj [("success", Json.bool false),
                             ("error", Json.str "Book not found in library")]⟩, trace)
        | .ok (item :: _) =>
            let product := item.product.getD Product.empty
            let last_position := item.last_position_heard.getD LastPosition.empty
            let runtime_min := product.runtime_length_min.getD 0
            let position_sec := last_position.position_in_book_seconds.getD 0
            (⟨200, Json.obj [("success", Json.bool true),
                             ("asin", Json.str asin),
                             ("position_seconds", Json.num position_sec),
                             ("percent_complete",
                              Json.num (percentComplete runtime_min position_sec)),
                             ("is_finished",
                              Json.bool (last_position.status == some "Finished"))]⟩,
             trace)
        | .unauthorized _ =>
            (⟨401, Json.obj [("success", Json.bool false),
                             ("error", Json.str "Token expired"),
                             ("needs_auth", Json.bool true)]⟩, trace)
        | .exn msg =>
            (⟨500, Json.obj [("success", Json.bool false),
                             ("error", Json.str ("Progress fetch error: " ++ msg))]⟩, trace)

/-- `POST /api/refresh-token` (app.py lines 400-460).  The `try` block has
only the generic `except Exception` handler, so a decryption failure, an
`UnauthorizedRequest`, and any other exception all reach the same
`'Token refresh error: ...'`, 500 response. -/
def refresh_token (cfg : ServiceConfig) (dec : String → Except String String)
    (enc : String → String) (expires_at : String) (req : RefreshRequest)
    (upstream : Upstream String) : Resp × List Event :=
  let api_secret := req.apiSecretHeader.getD ""
  if !(verify_api_secret cfg api_secret) then
    (unauthorizedResp, [])
  else if pyFalsyStr req.refresh_token then
    (⟨400, Json.obj [("success", Json.bool false),
                     ("error", Json.str "Refresh token is required")]⟩, [])
  else
    let refresh_token_enc := req.refresh_token.getD ""
    match dec refresh_token_enc with
    | .error msg =>
        (⟨500, Json.obj [("success", Json.bool false),
                         ("error", Json.str ("Token refresh error: " ++ msg))]⟩,
         [Event.decryptToken refresh_token_enc])
    | .ok _ =>
      let trace := [Event.decryptToken refresh_token_enc,
                    Event.upstreamCall "refresh_access_token"]
      match upstream with
      | .ok access_token =>
          (⟨200, Json.obj [("success", Json.bool true),
                           ("access_token", Json.str (enc access_token)),
                           ("expires_at", Json.str expires_at)]⟩, trace)
      | .unauthorized msg =>
          (⟨500, Json.obj [("success", Json.bool false),
                           ("error", Json.str ("Token refresh error: " ++ msg))]⟩, trace)
      | .exn msg =>
          (⟨500, Json.obj [("success", Json.bool false),
                           ("error", Json.str ("Token refresh error: " ++ msg))]⟩, trace)

/-- The claim's description of the runtime rule, written from the spec's
words — "the product's minutes field when that field is present and
nonzero, and otherwise the product's seconds field integer-divided by
60" — for comparison with `extractRuntimeMin`. -/
def runtimeMinutesSpec (p : Product) : ℤ :=
  match p.runtime_length_min with
  | some m => if m ≠ 0 then m else Int.fdiv (p.runtime_length_sec.getD 0) 60
  | none => Int.fdiv (p.runtime_length_sec.getD 0) 60

/-- The stubbed upstream item of the spec's scenario:
`runtime_length_min = 600`, `position_in_book_seconds = 3000`. -/
def item600 : LibraryItem :=
  { asin := some "B000000000"
    product := some { Product.empty with runtime_length_min := some 600 }
    last_position_heard :=
      some { position_in_book_seconds := some 3000, status := none } }

/-- A library request with both tokens present, for the scenario. -/
def req600 : TokenRequest := ⟨none, some "at", some "rt", none⟩

end Audible

namespace Tuya

/-- A value stored under a data-point code: the script only ever treats
these as Python bools or ints (switch flag, milliamps, deciwatts, ...). -/
inductive DpVal where
  | b (val : Bool)
  | n (val : ℤ)
deriving DecidableEq

/-- Python truthiness of a data-point value (`'ON' if dps['1'] else 'OFF'`,
`not current_state`). -/
def truthy : DpVal → Bool
  | .b val => val
  | .n val => val != 0

/-- A data-point value read as a Python number (`bool` is an `int`
subtype: `True` is 1, `False` is 0). -/
def asInt : DpVal → ℤ
  | .b val => if val then 1 else 0
  | .n val => val

/-- Python `==` between a data-point value and a bool
(`actual_state == new_state`): `True == 1` and `False == 0` hold. -/
def pyEq (v : DpVal) (b : Bool) : Bool :=
  match v with
  | .b b2 => b2 == b
  | .n n => n == (if b then 1 else 0)

/-- The `dps` dict of a status response, with dict lookup. -/
def lookupDp (dps : List (String × DpVal)) (key : String) : Option DpVal :=
  (dps.find? (fun kv => kv.1 == key)).map (fun kv => kv.2)

/-- One line of the "Parsed Data Points" section, holding the raw integer
read from the dict (the script scales by 10, 100 or 1000 only inside the
print format string). -/
inductive Line where
  | switchState (isOn : Bool)
  | currentLine (ma : ℤ)
  | powerLine (wTimesTen : ℤ)
  | voltageLine (vTimesTen : ℤ)
  | energyLine (kwhTimesHundred : ℤ)
  | energyStats (wTimesTen kwhTimesHundred : ℤ)
deriving DecidableEq

/-- Recognises the `Switch State:` line. -/
def isSwitchStateLine : Line → Bool
  | .switchState _ => true
  | _ => false

/-- The data-point parsing section of `test_connection`
(tuya-test-local.py lines 69-103): one guarded line per known code, plus
the energy-stats block when both "19" and "101" are present. -/
def parseDps (dps : List (String × DpVal)) : List Line :=
  (match lookupDp dps "1" with
   | some v => [Line.switchState (truthy v)]
   | none => []) ++
  (match lookupDp dps "18" with
   | some v => [Line.currentLine (asInt v)]
   | none => []) ++
  (match lookupDp dps "19" with
   | some v => [Line.powerLine (asInt v)]
   | none => []) ++
  (match lookupDp dps "20" with
   | some v => [Line.voltageLine (asInt v)]
   | none => []) ++
  (match lookupDp dps "101" with
   | some v => [Line.energyLine (asInt v)]
   | none => []) ++
  (match lookupDp dps "19", lookupDp dps "101" with
   | some p, some e => [Line.energyStats (asInt p) (asInt e)]
   | _, _ => [])

/-- What `device.status()` did: raised an exception, returned a falsy
value, or returned a dict (with or without a `'dps'` key). -/
inductive StatusResp where
  | raised (msg : String)
  | noResponse
  | ok (dps : Option (List (String × DpVal)))
deriving DecidableEq

/-- Result of `test_connection` (tuya-test-local.py lines 29-116): the
parsed data-point lines it printed and the boolean it returned.  The
function is total over every status response, which models that parsing
the remaining data points raises no exception. -/
structure ConnResult where
  dpLines : List Line
  success : Bool
deriving DecidableEq

/-- `test_connection`: no response and exceptions return `False`; a truthy
response returns `True`, printing the parsed lines only when `'dps'` is
present. -/
def test_connection (status : StatusResp) : ConnResult :=
  match status with
  | .raised _ => ⟨[], false⟩
  | .noResponse => ⟨[], false⟩
  | .ok none => ⟨[], true⟩
  | .ok (some dps) => ⟨parseDps dps, true⟩

/-- Outcome of `test_control` (tuya-test-local.py lines 118-165):
an exception was caught; the first status read had no usable `dps`; or
the toggle ran, issuing turn-on (`true`) or turn-off (`false`), with the
verification print — `some true` for "Successfully turned ...",
`some false` for "State may not have changed", `none` when the re-read
had no usable `dps`. -/
inductive ControlOutcome where
  | errorCaught (msg : String)
  | cannotGetState
  | toggled (turnedOn : Bool) (verified : Option Bool)
deriving DecidableEq

/-- `test_control`: reads the current switch state with
`status['dps'].get('1', False)`, inverts its truthiness, issues the
corresponding command, re-reads, and compares the re-read value against
the intended bool with Python `==`. -/
def test_control (status1 status2 : StatusResp) : ControlOutcome :=
  match status1 with
  | .raised msg => .errorCaught msg
  | .noResponse => .cannotGetState
  | .ok none => .cannotGetState
  | .ok (some dps) =>
    let current_state := (lookupDp dps "1").getD (DpVal.b false)
    let new_state := !(truthy current_state)
    match status2 with
    | .raised msg => .errorCaught msg
    | .noResponse => .toggled new_state none
    | .ok none => .toggled new_state none
    | .ok (some dps2) =>
      let actual_state := (lookupDp dps2 "1").getD (DpVal.b false)
      .toggled new_state (some (pyEq actual_state new_state))

/-- The claim's phrase "the re-read state for key 1 (again defaulting to
off when absent) equals on", written from the spec's words for
comparison with what `test_control` reports. -/
def reReadOn (dps2 : List (String × DpVal)) : Bool :=
  pyEq ((lookupDp dps2 "1").getD (DpVal.b false)) true

/-- The `DEVICE_CONFIG` dict (tuya-test-local.py lines 18-23). -/
structure DeviceConfig where
  dev_id : String
  address : String
  local_key : String
  version : ℚ
deriving DecidableEq

/-- What one invocation of the script's `__main__` block did. -/
structure MainRun where
  exitedWithOne : Bool
  ranConnectionTest : Bool
  ranControlTest : Bool
  printedComplete : Bool
deriving DecidableEq

/-- The `__main__` block (tuya-test-local.py lines 171-191): the
placeholder guard tests only `dev_id == 'YOUR_DEVICE_ID_HERE'` and calls
`sys.exit(1)`; otherwise it runs `test_connection`, runs `test_control`
exactly when that succeeded and the prompt answer lowercases to `'y'`,
and always reaches the completion text. -/
def script_main (cfg : DeviceConfig) (status : StatusResp) (answer : String) :
    MainRun :=
  if cfg.dev_id == "YOUR_DEVICE_ID_HERE" then
    ⟨true, false, false, false⟩
  else
    let conn := test_connection status
    ⟨false, true, conn.success && (answer.toLower == "y"), true⟩

end Tuya

/-! ## Helper lemmas -/

/-- XOR-with-IV is an involution, discharging the block-cipher inverse
hypothesis on concrete inputs. -/
theorem xorBytes_involutive :
    ∀ iv pt, Cipher.xorBytes iv (Cipher.xorBytes iv pt) = pt := by
  intro iv pt
  have h : ∀ b : ℕ, b ^^^ iv ^^^ iv = b := by
    intro b
    rw [Nat.xor_assoc, Nat.xor_self, Nat.xor_zero]
  simp only [Cipher.xorBytes, List.map_map]
  have hcomp : ((fun b => b ^^^ iv) ∘ fun b => b ^^^ iv) = id := by
    funext b
    simp [h]
  rw [hcomp, List.map_id]

/-- When a secret is configured and the supplied value differs,
`verify_api_secret` rejects. -/
theorem verify_false_of_ne {cfg : Audible.ServiceConfig}
    (hcfg : cfg.API_SECRET ≠ "") {s : String} (h : s ≠ cfg.API_SECRET) :
    Audible.verify_api_secret cfg s = false := by
  simp [Audible.verify_api_secret, hcfg, h]

/-! ## Claims -/

/-- C1 (counterexample): the round-trip law fails in the
encrypt-after-decrypt direction.  `tok = encrypt(pt)` under timestamp 0
and IV 0 decrypts to `pt`, but re-encrypting that plaintext under the
fresh IV 1 — encryption draws a fresh random IV on every call and embeds
it in the token — yields a different token, so
`encrypt(decrypt(tok)) ≠ tok`. -/
theorem c1_counterexample :
    Cipher.decrypt Cipher.xorBytes Cipher.macSum
        (Cipher.encrypt Cipher.xorBytes Cipher.macSum 0 0 [7]) = some [7] ∧
    Cipher.encrypt Cipher.xorBytes Cipher.macSum 0 1
        ((Cipher.decrypt Cipher.xorBytes Cipher.macSum
            (Cipher.encrypt Cipher.xorBytes Cipher.macSum 0 0 [7])).getD [])
      ≠ Cipher.encrypt Cipher.xorBytes Cipher.macSum 0 0 [7] := by
  decide

/-- C1 (amended): for every token string, under the fixed process-wide
key, `decrypt(encrypt(x)) = x` — for any encryption timestamp and IV,
and any block cipher whose decryption inverts its encryption; the
converse direction `encrypt(decrypt(x)) = x` does not hold because each
encryption embeds a fresh IV and timestamp in the token. -/
theorem c1_roundtrip (E D : ℕ → List ℕ → List ℕ) (M : ℕ → ℕ → List ℕ → ℕ)
    (hED : ∀ iv pt, D iv (E iv pt) = pt) (ts iv : ℕ) (pt : List ℕ) :
    Cipher.decrypt D M (Cipher.encrypt E M ts iv pt) = some pt := by
  simp [Cipher.encrypt, Cipher.decrypt, hED]

/-- C1 witness: the round-trip theorem applied to the XOR block cipher at
a concrete timestamp, IV and plaintext. -/
theorem c1_roundtrip_witness :
    Cipher.decrypt Cipher.xorBytes Cipher.macSum
        (Cipher.encrypt Cipher.xorBytes Cipher.macSum 3 5 [10, 20]) = some [10, 20] :=
  c1_roundtrip Cipher.xorBytes Cipher.xorBytes Cipher.macSum
    xorBytes_involutive 3 5 [10, 20]

/-- C8 (counterexample): a configuration whose `local_key` is still the
placeholder `'YOUR_LOCAL_KEY_HERE'` (and whose address is the placeholder
`'192.168.1.XXX'`) but whose `dev_id` is filled in does not exit with
code 1 — the script's guard tests only `dev_id`. -/
theorem c8_counterexample :
    (Tuya.script_main
        ⟨"abc123", "192.168.1.XXX", "YOUR_LOCAL_KEY_HERE", 33 / 10⟩
        Tuya.StatusResp.noResponse "n").exitedWithOne = false ∧
    (Tuya.script_main
        ⟨"abc123", "192.168.1.XXX", "YOUR_LOCAL_KEY_HERE", 33 / 10⟩
        Tuya.StatusResp.noResponse "n").ranConnectionTest = true := by
  constructor <;> rfl

/-- C8 (amended): the script exits with code 1 before running the
connection test exactly when the device id is left at its placeholder
value; for every other configuration (placeholders in the remaining
fields included) it runs the connection test and falls through to the
completion text. -/
theorem c8_gate (cfg : Tuya.DeviceConfig) (status : Tuya.StatusResp)
    (answer : String) :
    (cfg.dev_id = "YOUR_DEVICE_ID_HERE" →
        Tuya.script_main cfg status answer = ⟨true, false, false, false⟩) ∧
    (cfg.dev_id ≠ "YOUR_DEVICE_ID_HERE" →
        (Tuya.script_main cfg status answer).exitedWithOne = false ∧
        (Tuya.script_main cfg status answer).ranConnectionTest = true ∧
        (Tuya.script_main cfg status answer).printedComplete = true) := by
  constructor
  · intro h
    simp [Tuya.script_main, h]
  · intro h
    simp [Tuya.script_main, h]

/-- C8 witness: the amended gate theorem applied to the all-placeholder
configuration. -/
theorem c8_gate_witness :
    Tuya.script_main
        ⟨"YOUR_DEVICE_ID_HERE", "192.168.1.XXX", "YOUR_LOCAL_KEY_HERE", 33 / 10⟩
        Tuya.StatusResp.noResponse "n" = ⟨true, false, false, false⟩ :=
  (c8_gate ⟨"YOUR_DEVICE_ID_HERE", "192.168.1.XXX", "YOUR_LOCAL_KEY_HERE", 33 / 10⟩
      Tuya.StatusResp.noResponse "n").1 rfl

/-- C9 (confirmed): for every device status response whose `dps` mapping
lacks the key `"1"`, `test_connection` completes (returns `True`; the
parsing of the remaining data points is a total function, so no
exception is raised) and its parsed output contains no switch-state
line. -/
theorem c9_missing_dp1 (dps : List (String × Tuya.DpVal))
    (h : Tuya.lookupDp dps "1" = none) :
    (Tuya.test_connection (Tuya.StatusResp.ok (some dps))).success = true ∧
    ((Tuya.test_connection (Tuya.StatusResp.ok (some dps))).dpLines.all
        (fun l => !(Tuya.isSwitchStateLine l))) = true := by
  refine ⟨rfl, ?_⟩
  rcases h18 : Tuya.lookupDp dps "18" with _ | v18 <;>
  rcases h19 : Tuya.lookupDp dps "19" with _ | v19 <;>
  rcases h20 : Tuya.lookupDp dps "20" with _ | v20 <;>
  rcases h101 : Tuya.lookupDp dps "101" with _ | v101 <;>
    simp [Tuya.test_connection, Tuya.parseDps, h, h18, h19, h20, h101,
      Tuya.isSwitchStateLine, List.all_append]

/-- C9 witness: a status response carrying only data point `"19"`. -/
theorem c9_missing_dp1_witness :
    (Tuya.test_connection
        (Tuya.StatusResp.ok (some [("19", Tuya.DpVal.n 100)]))).success = true ∧
    ((Tuya.test_connection
        (Tuya.StatusResp.ok (some [("19", Tuya.DpVal.n 100)]))).dpLines.all
        (fun l => !(Tuya.isSwitchStateLine l))) = true :=
  c9_missing_dp1 [("19", Tuya.DpVal.n 100)] (by decide)

/-- C2 (confirmed): when a shared secret is configured, every endpoint
other than `/health` answers a request whose `X-API-Secret` header is
absent (defaulting to `''`) or differs from the secret with the 401
`Unauthorized` response and performs no token decryption and no upstream
call (empty effect trace); when no secret is configured,
`verify_api_secret` accepts every caller; `/health` answers 200. -/
theorem c2_secret_gate (cfg : Audible.ServiceConfig)
    (hcfg : cfg.API_SECRET ≠ "") :
    (∀ (enc : String → String) (expires_at : String) (req : Audible.AuthRequest)
        (u : Audible.AuthUpstream),
        req.apiSecretHeader.getD "" ≠ cfg.API_SECRET →
        Audible.authenticate cfg enc expires_at req u
          = (Audible.unauthorizedResp, [])) ∧
    (∀ (dec : String → Except String String) (req : Audible.TokenRequest)
        (u : Audible.Upstream (List Audible.LibraryItem)),
        req.apiSecretHeader.getD "" ≠ cfg.API_SECRET →
        Audible.get_library cfg dec req u = (Audible.unauthorizedResp, [])) ∧
    (∀ (dec : String → Except String String) (asin : String)
        (req : Audible.TokenRequest)
        (u : Audible.Upstream (List Audible.LibraryItem)),
        req.apiSecretHeader.getD "" ≠ cfg.API_SECRET →
        Audible.get_progress cfg dec asin req u
          = (Audible.unauthorizedResp, [])) ∧
    (∀ (dec : String → Except String String) (enc : String → String)
        (expires_at : String) (req : Audible.RefreshRequest)
        (u : Audible.Upstream String),
        req.apiSecretHeader.getD "" ≠ cfg.API_SECRET →
        Audible.refresh_token cfg dec enc expires_at req u
          = (Audible.unauthorizedResp, [])) ∧
    (∀ cfg2 : Audible.ServiceConfig, cfg2.API_SECRET = "" →
        ∀ s, Audible.verify_api_secret cfg2 s = true) ∧
    (∀ timestamp, (Audible.health_check timestamp).status = 200) := by
  refine ⟨?_, ?_, ?_, ?_, ?_, ?_⟩
  · intro enc expires_at req u h
    simp [Audible.authenticate, verify_false_of_ne hcfg h]
  · intro dec req u h
    simp [Audible.get_library, verify_false_of_ne hcfg h]
  · intro dec asin req u h
    simp [Audible.get_progress, verify_false_of_ne hcfg h]
  · intro dec enc expires_at req u h
    simp [Audible.refresh_token, verify_false_of_ne hcfg h]
  · intro cfg2 h s
    simp [Audible.verify_api_secret, h]
  · intro timestamp
    rfl

/-- C2 witness: a configured secret, a request with the header absent. -/
theorem c2_secret_gate_witness :
    Audible.authenticate ⟨"s3cr3t"⟩ id "2025-01-01T00:00:00Z"
        ⟨none, some "a@b.com", some "pw", none⟩ (Audible.AuthUpstream.exn "boom")
      = (Audible.unauthorizedResp, []) :=
  (c2_secret_gate ⟨"s3cr3t"⟩ (by decide)).1 id "2025-01-01T00:00:00Z"
    ⟨none, some "a@b.com", some "pw", none⟩ (Audible.AuthUpstream.exn "boom")
    (by decide)

/-- C3 (counterexample): at runtime 5 minutes and position 87 seconds
the program's double-precision evaluation of `(87/300)*100` lands just
below 29 (the correctly rounded product is 28.999999999999996), so
`int()` truncates to 28, while the floor the claim states is 29 — the
computed percentage does not equal the exact floor. -/
theorem c3_counterexample :
    Audible.percentComplete 5 87 = 28 ∧
    min 100 ⌊(((87:ℤ) : ℚ) / (((5:ℤ) : ℚ) * 60)) * 100⌋ = 29 ∧
    Audible.percentComplete 5 87
      ≠ min 100 ⌊(((87:ℤ) : ℚ) / (((5:ℤ) : ℚ) * 60)) * 100⌋ := by
  have h1 : Audible.percentComplete 5 87 = 28 := by decide
  have h2 : min 100 ⌊(((87:ℤ) : ℚ) / (((5:ℤ) : ℚ) * 60)) * 100⌋ = 29 := by
    rw [show (((87:ℤ) : ℚ) / (((5:ℤ) : ℚ) * 60)) * 100 = 29 by norm_num]
    rw [show ⌊(29 : ℚ)⌋ = 29 by rw [Int.floor_eq_iff]; norm_num]
    norm_num
  refine ⟨h1, h2, ?_⟩
  rw [h1, h2]
  decide

/-- C3 (amended): for every non-negative listening position and
non-negative runtime in minutes, the completion-percentage computation
shared by the library and progress endpoints is 0 when the runtime is 0
(the guarded branch performs no division), equals the clamped truncation
of the double-precision evaluation of `position / (runtime*60) * 100`
when the runtime is positive — which can fall below the exact floor —
and always lies in `[0, 100]`. -/
theorem c3_percent_float (runtime_min position_sec : ℤ)
    (_hrt : 0 ≤ runtime_min) (hpos : 0 ≤ position_sec) :
    (runtime_min = 0 → Audible.percentComplete runtime_min position_sec = 0) ∧
    (0 < runtime_min →
        Audible.percentComplete runtime_min position_sec
          = min 100 (Audible.pyFloatPct position_sec.toNat
              (runtime_min * 60).toNat : ℤ)) ∧
    0 ≤ Audible.percentComplete runtime_min position_sec ∧
    Audible.percentComplete runtime_min position_sec ≤ 100 := by
  by_cases hlt : 0 < runtime_min
  · have heq : Audible.percentComplete runtime_min position_sec
        = min 100 (Audible.pyFloatPct position_sec.toNat
            (runtime_min * 60).toNat : ℤ) := by
      simp [Audible.percentComplete, hlt, hpos]
    refine ⟨fun h0 => absurd h0 (by omega), fun _ => heq, ?_, ?_⟩
    · rw [heq]
      exact le_min (by norm_num) (Int.natCast_nonneg _)
    · rw [heq]
      exact min_le_left _ _
  · have heq : Audible.percentComplete runtime_min position_sec = 0 := by
      simp [Audible.percentComplete, hlt]
    exact ⟨fun _ => heq, fun h => absurd h hlt, by rw [heq], by rw [heq]; norm_num⟩

/-- C3 witness: the amended theorem at runtime 5 minutes and position 87
seconds, where the clamped double-precision truncation is 28. -/
theorem c3_percent_float_witness :
    ((5:ℤ) = 0 → Audible.percentComplete 5 87 = 0) ∧
    ((0:ℤ) < 5 →
        Audible.percentComplete 5 87
          = min 100 (Audible.pyFloatPct (87:ℤ).toNat ((5:ℤ) * 60).toNat : ℤ)) ∧
    (0:ℤ) ≤ Audible.percentComplete 5 87 ∧
    Audible.percentComplete 5 87 ≤ 100 :=
  c3_percent_float 5 87 (by decide) (by decide)

/-- C4 (counterexample): a request to `/api/auth` with the required email
field absent but with a wrong shared secret is answered on the 401 path,
not the 400 path — the secret check precedes field validation. -/
theorem c4_counterexample :
    (Audible.authenticate ⟨"s3cr3t"⟩ id "t"
        ⟨none, none, some "pw", none⟩ (Audible.AuthUpstream.exn "boom")).1.status
      = 401 ∧
    (Audible.authenticate ⟨"s3cr3t"⟩ id "t"
        ⟨none, none, some "pw", none⟩ (Audible.AuthUpstream.exn "boom")).1.status
      ≠ 400 := by
  constructor
  · rfl
  · decide

/-- C4 (amended): for every request that passes the shared-secret check,
an absent or empty required field makes the endpoint return its 400
response before any token decryption or upstream call (empty effect
trace): email/password for `/api/auth`, the two tokens for
`/api/library` and `/api/progress/<asin>`, the refresh token for
`/api/refresh-token`. -/
theorem c4_fail_fast (cfg : Audible.ServiceConfig) :
    (∀ (enc : String → String) (expires_at : String) (req : Audible.AuthRequest)
        (u : Audible.AuthUpstream),
        Audible.verify_api_secret cfg (req.apiSecretHeader.getD "") = true →
        (Audible.pyFalsyStr req.email || Audible.pyFalsyStr req.password) = true →
        Audible.authenticate cfg enc expires_at req u
          = (⟨400, Audible.Json.obj
                [("success", Audible.Json.bool false),
                 ("error", Audible.Json.str "Email and password are required")]⟩,
             [])) ∧
    (∀ (dec : String → Except String String) (req : Audible.TokenRequest)
        (u : Audible.Upstream (List Audible.LibraryItem)),
        Audible.verify_api_secret cfg (req.apiSecretHeader.getD "") = true →
        (Audible.pyFalsyStr req.access_token
            || Audible.pyFalsyStr req.refresh_token) = true →
        Audible.get_library cfg dec req u
          = (⟨400, Audible.Json.obj
                [("success", Audible.Json.bool false),
                 ("error", Audible.Json.str "Tokens are required")]⟩, [])) ∧
    (∀ (dec : String → Except String String) (asin : String)
        (req : Audible.TokenRequest)
        (u : Audible.Upstream (List Audible.LibraryItem)),
        Audible.verify_api_secret cfg (req.apiSecretHeader.getD "") = true →
        (Audible.pyFalsyStr req.access_token
            || Audible.pyFalsyStr req.refresh_token) = true →
        Audible.get_progress cfg dec asin req u
          = (⟨400, Audible.Json.obj
                [("success", Audible.Json.bool false),
                 ("error", Audible.Json.str "Tokens are required")]⟩, [])) ∧
    (∀ (dec : String → Except String String) (enc : String → String)
        (expires_at : String) (req : Audible.RefreshRequest)
        (u : Audible.Upstream String),
        Audible.verify_api_secret cfg (req.apiSecretHeader.getD "") = true →
        Audible.pyFalsyStr req.refresh_token = true →
        Audible.refresh_token cfg dec enc expires_at req u
          = (⟨400, Audible.Json.obj
                [("success", Audible.Json.bool false),
                 ("error", Audible.Json.str "Refresh token is required")]⟩, [])) := by
  refine ⟨?_, ?_, ?_, ?_⟩
  · intro enc expires_at req u hsec hf
    simp [Audible.authenticate, hsec, hf]
  · intro dec req u hsec hf
    simp [Audible.get_library, hsec, hf]
  · intro dec asin req u hsec hf
    simp [Audible.get_progress, hsec, hf]
  · intro dec enc expires_at req u hsec hf
    simp [Audible.refresh_token, hsec, hf]

/-- C4 witness: the fail-fast theorem applied to an `/api/auth` request
with no email. -/
theorem c4_fail_fast_witness :
    Audible.authenticate ⟨""⟩ id "t" ⟨none, none, some "pw", none⟩
        (Audible.AuthUpstream.exn "boom")
      = (⟨400, Audible.Json.obj
            [("success", Audible.Json.bool false),
             ("error", Audible.Json.str "Email and password are required")]⟩,
         []) :=
  (c4_fail_fast ⟨""⟩).1 id "t" ⟨none, none, some "pw", none⟩
    (Audible.AuthUpstream.exn "boom") (by decide) (by decide)

/-- C5 (counterexample): when the third-party client reports the token
invalid/expired during `/api/refresh-token`, the response is the generic
500 failure — the handler's `try` block has only the blanket
`except Exception` — not a 401 carrying a needs-re-authentication
flag. -/
theorem c5_counterexample :
    (Audible.refresh_token ⟨""⟩ (fun s => Except.ok s) id "exp"
        ⟨none, some "tok", none⟩
        (Audible.Upstream.unauthorized "expired")).1.status = 500 ∧
    (Audible.refresh_token ⟨""⟩ (fun s => Except.ok s) id "exp"
        ⟨none, some "tok", none⟩
        (Audible.Upstream.unauthorized "expired")).1.status ≠ 401 := by
  constructor
  · rfl
  · decide

/-- C5 (amended): for `/api/library` and `/api/progress/<asin>`, a
token-invalid/expired report from the third-party client yields HTTP 401
with the distinguishing `needs_auth: true` flag, distinct from the
generic 500 path; `/api/refresh-token`, whose handler has no dedicated
`UnauthorizedRequest` clause, instead maps the same condition to its
generic 500 error with the exception text embedded and no flag. -/
theorem c5_upstream_auth (cfg : Audible.ServiceConfig) :
    (∀ (dec : String → Except String String) (req : Audible.TokenRequest)
        (msg a b : String),
        Audible.verify_api_secret cfg (req.apiSecretHeader.getD "") = true →
        Audible.pyFalsyStr req.access_token = false →
        Audible.pyFalsyStr req.refresh_token = false →
        dec (req.access_token.getD "") = Except.ok a →
        dec (req.refresh_token.getD "") = Except.ok b →
        Audible.get_library cfg dec req (Audible.Upstream.unauthorized msg)
          = (⟨401, Audible.Json.obj
                [("success", Audible.Json.bool false),
                 ("error", Audible.Json.str "Token expired"),
                 ("needs_auth", Audible.Json.bool true)]⟩,
             [Audible.Event.decryptToken (req.access_token.getD ""),
              Audible.Event.decryptToken (req.refresh_token.getD ""),
              Audible.Event.upstreamCall "library"])) ∧
    (∀ (dec : String → Except String String) (asin : String)
        (req : Audible.TokenRequest) (msg a b : String),
        Audible.verify_api_secret cfg (req.apiSecretHeader.getD "") = true →
        Audible.pyFalsyStr req.access_token = false →
        Audible.pyFalsyStr req.refresh_token = false →
        dec (req.access_token.getD "") = Except.ok a →
        dec (req.refresh_token.getD "") = Except.ok b →
        Audible.get_progress cfg dec asin req (Audible.Upstream.unauthorized msg)
          = (⟨401, Audible.Json.obj
                [("success", Audible.Json.bool false),
                 ("error", Audible.Json.str "Token expired"),
                 ("needs_auth", Audible.Json.bool true)]⟩,
             [Audible.Event.decryptToken (req.access_token.getD ""),
              Audible.Event.decryptToken (req.refresh_token.getD ""),
              Audible.Event.upstreamCall "library"])) ∧
    (∀ (dec : String → Except String String) (enc : String → String)
        (expires_at : String) (req : Audible.RefreshRequest) (msg a : String),
        Audible.verify_api_secret cfg (req.apiSecretHeader.getD "") = true →
        Audible.pyFalsyStr req.refresh_token = false →
        dec (req.refresh_token.getD "") = Except.ok a →
        Audible.refresh_token cfg dec enc expires_at req
            (Audible.Upstream.unauthorized msg)
          = (⟨500, Audible.Json.obj
                [("success", Audible.Json.bool false),
                 ("error",
                  Audible.Json.str ("Token refresh error: " ++ msg))]⟩,
             [Audible.Event.decryptToken (req.refresh_token.getD ""),
              Audible.Event.upstreamCall "refresh_access_token"])) := by
  refine ⟨?_, ?_, ?_⟩
  · intro dec req msg a b hsec hf1 hf2 hd1 hd2
    simp [Audible.get_library, hsec, hf1, hf2, hd1, hd2]
  · intro dec asin req msg a b hsec hf1 hf2 hd1 hd2
    simp [Audible.get_progress, hsec, hf1, hf2, hd1, hd2]
  · intro dec enc expires_at req msg a hsec hf hd
    simp [Audible.refresh_token, hsec, hf, hd]

/-- C5 witness: the amended theorem's library clause at a concrete
request with decryptable tokens and an expired-token upstream report. -/
theorem c5_upstream_auth_witness :
    Audible.get_library ⟨""⟩ (fun s => Except.ok s)
        ⟨none, some "at", some "rt", none⟩
        (Audible.Upstream.unauthorized "expired")
      = (⟨401, Audible.Json.obj
            [("success", Audible.Json.bool false),
             ("error", Audible.Json.str "Token expired"),
             ("needs_auth", Audible.Json.bool true)]⟩,
         [Audible.Event.decryptToken "at", Audible.Event.decryptToken "rt",
          Audible.Event.upstreamCall "library"]) :=
  (c5_upstream_auth ⟨""⟩).1 (fun s => Except.ok s)
    ⟨none, some "at", some "rt", none⟩ "expired" "at" "rt"
    (by decide) (by decide) (by decide) rfl rfl

/-- C6 (confirmed): for every library item the reported runtime in
minutes equals the product's minutes field when that field is present
and nonzero, and otherwise the seconds field integer-divided by 60; and
the spec's scenario — a stubbed upstream returning one item with
`runtime_length_min = 600` and `position_in_book_seconds = 3000` —
yields a 200 library response whose single book has
`percent_complete = 8`. -/
theorem c6_runtime_preference :
    (∀ p : Audible.Product,
        Audible.extractRuntimeMin p = Audible.runtimeMinutesSpec p) ∧
    (Audible.shapeBook Audible.item600).percent_complete = 8 ∧
    Audible.get_library ⟨""⟩ (fun s => Except.ok s) Audible.req600
        (Audible.Upstream.ok [Audible.item600])
      = (⟨200, Audible.Json.obj
            [("success", Audible.Json.bool true),
             ("books", Audible.Json.arr
                [Audible.bookToJson (Audible.shapeBook Audible.item600)]),
             ("total_count", Audible.Json.num 1)]⟩,
         [Audible.Event.decryptToken "at", Audible.Event.decryptToken "rt",
          Audible.Event.upstreamCall "library"]) := by
  refine ⟨?_, ?_, ?_⟩
  · intro p
    rcases hm : p.runtime_length_min with _ | m
    · simp [Audible.extractRuntimeMin, Audible.runtimeMinutesSpec, hm]
    · by_cases hz : m = 0 <;>
        simp [Audible.extractRuntimeMin, Audible.runtimeMinutesSpec, hm, hz]
  · show Audible.percentComplete 600 3000 = 8
    decide
  · rfl

/-- C7 (confirmed): a `/api/auth` request that passes the shared-secret
check and carries non-empty email and password, for which the upstream
authenticator raises `BadRequest` (bad credentials), is answered 400
with body `{'success': False, 'error': 'Invalid email or password'}`. -/
theorem c7_bad_credentials (cfg : Audible.ServiceConfig)
    (enc : String → String) (expires_at : String) (req : Audible.AuthRequest)
    (msg : String)
    (hsec : Audible.verify_api_secret cfg (req.apiSecretHeader.getD "") = true)
    (hemail : Audible.pyFalsyStr req.email = false)
    (hpw : Audible.pyFalsyStr req.password = false) :
    Audible.authenticate cfg enc expires_at req
        (Audible.AuthUpstream.badRequest msg)
      = (⟨400, Audible.Json.obj
            [("success", Audible.Json.bool false),
             ("error", Audible.Json.str "Invalid email or password")]⟩,
         [Audible.Event.upstreamCall "from_login"]) := by
  simp [Audible.authenticate, hsec, hemail, hpw]

/-- C7 witness: the spec's scenario, `{email: "a@b.com",
password: "wrong"}` against a bad-credentials upstream. -/
theorem c7_bad_credentials_witness :
    Audible.authenticate ⟨""⟩ id "t"
        ⟨none, some "a@b.com", some "wrong", none⟩
        (Audible.AuthUpstream.badRequest "BadRequest")
      = (⟨400, Audible.Json.obj
            [("success", Audible.Json.bool false),
             ("error", Audible.Json.str "Invalid email or password")]⟩,
         [Audible.Event.upstreamCall "from_login"]) :=
  c7_bad_credentials ⟨""⟩ id "t" ⟨none, some "a@b.com", some "wrong", none⟩
    "BadRequest" (by decide) (by decide) (by decide)

/-- C10 (confirmed): in `test_control`, when the first status read has no
key `"1"` in its `dps`, the current state defaults to off, so the toggle
issues a turn-on command, and the verification print reports success
exactly when the re-read value for key `"1"` (again defaulting to off
when absent) compares equal to on. -/
theorem c10_toggle_default_off (dps1 dps2 : List (String × Tuya.DpVal))
    (h : Tuya.lookupDp dps1 "1" = none) :
    Tuya.test_control (Tuya.StatusResp.ok (some dps1))
        (Tuya.StatusResp.ok (some dps2))
      = Tuya.ControlOutcome.toggled true (some (Tuya.reReadOn dps2)) := by
  simp [Tuya.test_control, h, Tuya.truthy, Tuya.reReadOn]

/-- C10 witness: first read lacks `"1"`, re-read carries the integer 1
(Python `1 == True`), so the toggle turns on and reports success. -/
theorem c10_toggle_default_off_witness :
    Tuya.test_control (Tuya.StatusResp.ok (some [("18", Tuya.DpVal.n 5)]))
        (Tuya.StatusResp.ok (some [("1", Tuya.DpVal.n 1)]))
      = Tuya.ControlOutcome.toggled true (some true) := by
  rw [c10_toggle_default_off [("18", Tuya.DpVal.n 5)] [("1", Tuya.DpVal.n 1)]
    (by decide)]
  decide
